import Mathlib

/-!
Verification of the gratefulday repository against its specification.

Each definition below is a shallow embedding of a function of the
repository's TypeScript source.  JavaScript numbers are modelled as
`Int`/`Nat` (all quantities involved are integral), JavaScript `Date`
values as civil calendar dates `(year, month, dayOfMonth)` at local
midnight with every day exactly 86400000 ms long, nullable values as
`Option`, thrown exceptions as `Except`, and external library calls
(bolt11 decoding, bech32 decoding, JSON parsing) as function parameters.
-/

namespace GratefulDay

/-! ## Calendar model — src/src/lib/gratitudeUtils.ts -/

/-- `isLeapYear` (gratitudeUtils.ts): divisible by 4 and not by 100, or
divisible by 400.  The JS `%` test `=== 0` agrees with `Int.emod = 0`. -/
def isLeapYear (year : Int) : Bool :=
  (year % 4 == 0 && year % 100 != 0) || year % 400 == 0

/-- `getTotalDaysInYear` (gratitudeUtils.ts). -/
def getTotalDaysInYear (year : Int) : Int :=
  if isLeapYear year then 366 else 365

/-- Length of the 0-based month `m` of year `y` in the Gregorian calendar
(the calendar JS `Date` implements for the years in scope). -/
def monthLength (y : Int) (m : Nat) : Nat :=
  match m with
  | 0 => 31
  | 1 => if isLeapYear y then 29 else 28
  | 2 => 31
  | 3 => 30
  | 4 => 31
  | 5 => 30
  | 6 => 31
  | 7 => 31
  | 8 => 30
  | 9 => 31
  | 10 => 30
  | _ => 31

/-- Days of year `y` that lie strictly before 0-based month `m`. -/
def daysBeforeMonth (y : Int) (m : Nat) : Nat :=
  ((List.range m).map (monthLength y)).sum

/-- Number of leap years in `[1..n]`. -/
def leapDaysUpTo (n : Nat) : Nat :=
  n / 4 - n / 100 + n / 400

/-- Day index of the civil date `(y, m, d)` (0-based month `m`, day of
month `d` as an integer so that `d = 0` denotes the day before the first
of the month, exactly as JS `new Date(y, 0, 0)` normalises). -/
def civilDays (y : Nat) (m : Nat) (d : Int) : Int :=
  365 * ((y : Int) - 1) + (leapDaysUpTo (y - 1) : Int) + (daysBeforeMonth y m : Int) + (d - 1)

/-- `Date.getTime()` of the civil date `(y, m, d)` at local midnight, in
milliseconds from the model origin (one day = 86400000 ms). -/
def getTimeMs (y : Nat) (m : Nat) (d : Int) : Int :=
  86400000 * civilDays y m d

/-- `getDayOfYear` (gratitudeUtils.ts): `start = new Date(y, 0, 0)`,
`diff = date.getTime() - start.getTime()`, `Math.floor(diff / oneDay)`.
`Math.floor` of a real division is floor division `Int.fdiv`. -/
def getDayOfYear (y : Nat) (m : Nat) (d : Nat) : Int :=
  let start := getTimeMs y 0 0
  let diff := getTimeMs y m d - start
  let oneDay : Int := 1000 * 60 * 60 * 24
  diff.fdiv oneDay

/-- Modelled from the spec: the ordinal position of the date `(y, m, d)`
within year `y` (January 1 is 1). -/
def dayOfYearOrdinal (y : Nat) (m : Nat) (d : Nat) : Nat :=
  daysBeforeMonth y m + d

theorem getDayOfYear_eq_ordinal (y m : Nat) (d : Nat) :
    getDayOfYear y m d = (dayOfYearOrdinal y m d : Int) := by
  have h : getTimeMs y m d - getTimeMs y 0 0
      = 86400000 * ((daysBeforeMonth y m : Int) + (d : Int)) := by
    simp only [getTimeMs, civilDays, daysBeforeMonth, List.range_zero, List.map_nil,
      List.sum_nil, Nat.cast_zero]
    ring
  simp only [getDayOfYear, dayOfYearOrdinal, h]
  rw [show (1000 * 60 * 60 * 24 : Int) = 86400000 by norm_num,
    Int.mul_fdiv_cancel_left _ (by norm_num)]
  push_cast
  ring

theorem dayOfYearOrdinal_le (y : Int) (m : Nat) (hm : m ≤ 11) (d : Nat)
    (hd : d ≤ monthLength y m) : daysBeforeMonth y m + d ≤ 366 := by
  interval_cases m <;>
    cases h : isLeapYear y <;>
      simp_all [daysBeforeMonth, List.range_succ, monthLength] <;> omega

theorem daysBeforeMonth_eleven (y : Int) :
    daysBeforeMonth y 11 = if isLeapYear y then 335 else 334 := by
  cases h : isLeapYear y <;> simp [daysBeforeMonth, List.range_succ, monthLength, h]

/-- C4: for every calendar date, `getDayOfYear` returns the ordinal position
of the date within its year, a value in `[1..366]`; January 1 gives 1 and
December 31 gives `getTotalDaysInYear` (365, or 366 in a leap year). -/
theorem getDayOfYear_ordinal (y m d : Nat) (hm : m ≤ 11) (hd1 : 1 ≤ d)
    (hd2 : d ≤ monthLength y m) :
    getDayOfYear y m d = (dayOfYearOrdinal y m d : Int)
    ∧ 1 ≤ getDayOfYear y m d ∧ getDayOfYear y m d ≤ 366
    ∧ getDayOfYear y 0 1 = 1
    ∧ getDayOfYear y 11 31 = getTotalDaysInYear y := by
  refine ⟨getDayOfYear_eq_ordinal y m d, ?_, ?_, ?_, ?_⟩
  · rw [getDayOfYear_eq_ordinal y m d]
    have : 1 ≤ dayOfYearOrdinal y m d := by
      unfold dayOfYearOrdinal; omega
    exact_mod_cast this
  · rw [getDayOfYear_eq_ordinal y m d]
    have : dayOfYearOrdinal y m d ≤ 366 := dayOfYearOrdinal_le y m hm d hd2
    exact_mod_cast this
  · rw [getDayOfYear_eq_ordinal y 0 1]
    simp [dayOfYearOrdinal, daysBeforeMonth]
  · rw [getDayOfYear_eq_ordinal y 11 31]
    rw [show dayOfYearOrdinal y 11 31 = daysBeforeMonth (y : Int) 11 + 31 from rfl,
      daysBeforeMonth_eleven]
    unfold getTotalDaysInYear
    cases h : isLeapYear (y : Int) <;> simp [h]

/-- C4 witness: the theorem applied to December 6, 2024 (0-based month 11). -/
theorem getDayOfYear_ordinal_witness :
    getDayOfYear 2024 11 6 = (dayOfYearOrdinal 2024 11 6 : Int)
    ∧ 1 ≤ getDayOfYear 2024 11 6 ∧ getDayOfYear 2024 11 6 ≤ 366
    ∧ getDayOfYear 2024 0 1 = 1
    ∧ getDayOfYear 2024 11 31 = getTotalDaysInYear 2024 :=
  getDayOfYear_ordinal 2024 11 6 (by decide) (by decide) (by decide)

/-- C8: `getTotalDaysInYear y = 366` iff `isLeapYear y`, `isLeapYear` is the
Gregorian rule, and the concrete years 2024/2023/2000/1900 give
366/365/366/365. -/
theorem getTotalDaysInYear_iff_leap :
    (∀ y : Int, getTotalDaysInYear y = 366 ↔ isLeapYear y = true)
    ∧ (∀ y : Int, isLeapYear y = ((y % 4 == 0 && y % 100 != 0) || y % 400 == 0))
    ∧ getTotalDaysInYear 2024 = 366 ∧ getTotalDaysInYear 2023 = 365
    ∧ getTotalDaysInYear 2000 = 366 ∧ getTotalDaysInYear 1900 = 365 := by
  refine ⟨fun y => ?_, fun y => rfl, by decide, by decide, by decide, by decide⟩
  by_cases h : isLeapYear y = true <;> simp [getTotalDaysInYear, h]

/-- C8 witness: the equivalence evaluated at the concrete year 2024. -/
theorem getTotalDaysInYear_iff_leap_witness :
    (getTotalDaysInYear 2024 = 366 ↔ isLeapYear 2024 = true)
    ∧ getTotalDaysInYear 2024 = 366 :=
  ⟨getTotalDaysInYear_iff_leap.1 2024, getTotalDaysInYear_iff_leap.2.2.1⟩

/-! ## Content tables — src/src/lib/gratitudeUtils.ts -/

/-- An entry of the quote table: quoted text and its author. -/
structure Quote where
  text : String
  author : String
deriving DecidableEq

/-- The quote table of `getQuoteForDay` (gratitudeUtils.ts). -/
def quotes : List Quote := [
  ⟨"Gratitude turns what we have into enough.", "Anonymous"⟩,
  ⟨"The root of joy is gratefulness.", "David Steindl-Rast"⟩,
  ⟨"Gratitude is not only the greatest of virtues, but the parent of all others.", "Cicero"⟩,
  ⟨"When I started counting my blessings, my whole life turned around.", "Willie Nelson"⟩,
  ⟨"Gratitude makes sense of our past, brings peace for today, and creates a vision for tomorrow.", "Melody Beattie"⟩,
  ⟨"Acknowledging the good that you already have in your life is the foundation for all abundance.", "Eckhart Tolle"⟩,
  ⟨"Gratitude is the healthiest of all human emotions.", "Zig Ziglar"⟩,
  ⟨"Let us be grateful to the people who make us happy.", "Marcel Proust"⟩,
  ⟨"Gratitude is the sign of noble souls.", "Aesop"⟩,
  ⟨"The struggle ends when gratitude begins.", "Neale Donald Walsch"⟩,
  ⟨"Enjoy the little things, for one day you may look back and realize they were the big things.", "Robert Brault"⟩,
  ⟨"Gratitude is the fairest blossom which springs from the soul.", "Henry Ward Beecher"⟩,
  ⟨"In ordinary life, we hardly realize that we receive a great deal more than we give.", "Dietrich Bonhoeffer"⟩,
  ⟨"Gratitude unlocks the fullness of life.", "Melody Beattie"⟩,
  ⟨"The more grateful I am, the more beauty I see.", "Mary Davis"⟩,
  ⟨"Gratitude is the wine for the soul. Go on. Get drunk.", "Rumi"⟩,
  ⟨"Trade your expectation for appreciation and the world changes instantly.", "Tony Robbins"⟩,
  ⟨"Gratitude is riches. Complaint is poverty.", "Doris Day"⟩,
  ⟨"Gratitude is a powerful catalyst for happiness.", "Amy Collette"⟩,
  ⟨"When you are grateful, fear disappears and abundance appears.", "Anthony Robbins"⟩,
  ⟨"Gratitude is the memory of the heart.", "Jean Baptiste Massieu"⟩,
  ⟨"Cultivate the habit of being grateful for every good thing that comes to you.", "Ralph Waldo Emerson"⟩,
  ⟨"Gratitude is the best attitude.", "Anonymous"⟩,
  ⟨"A grateful heart is a magnet for miracles.", "Anonymous"⟩,
  ⟨"Gratitude is happiness doubled by wonder.", "G.K. Chesterton"⟩,
  ⟨"The thankful receiver bears a plentiful harvest.", "William Blake"⟩,
  ⟨"Gratitude can transform common days into thanksgivings.", "William Arthur Ward"⟩,
  ⟨"As we express our gratitude, we must never forget that the highest appreciation is not to utter words but to live by them.", "John F. Kennedy"⟩,
  ⟨"Gratitude is the inward feeling of kindness received.", "Henry Van Dyke"⟩,
  ⟨"Silent gratitude isn\x27t much use to anyone.", "Gladys Bronwyn Stern"⟩
]

/-- The prompt table of `getPromptForDay` (gratitudeUtils.ts). -/
def prompts : List String := [
  "Someone who made you smile today",
  "A small moment of peace you experienced",
  "Something beautiful you noticed",
  "A kindness you received",
  "A lesson you learned",
  "A challenge that made you stronger",
  "Something that made you laugh",
  "A connection with another person",
  "Something in nature that inspired you",
  "A comfort you often take for granted",
  "A skill or ability you possess",
  "A memory that brings you joy",
  "Something you accomplished today",
  "A place that brings you peace",
  "Someone who believes in you",
  "A favorite food or meal",
  "A book, song, or art that touched you",
  "Your health or a part of your body",
  "A technology that makes life easier",
  "A tradition you cherish",
  "An opportunity you\x27ve been given",
  "Something soft or comfortable",
  "A problem that was solved",
  "Something you\x27re looking forward to",
  "A choice you\x27re free to make",
  "Something that smells wonderful",
  "A sound that soothes you",
  "A pet or animal",
  "Your home or shelter",
  "Clean water or fresh air",
  "A second chance you received",
  "Something you created",
  "A friend or family member",
  "Your favorite season",
  "A recent conversation",
  "Something colorful",
  "A warm beverage",
  "Time to rest",
  "A helpful stranger",
  "Your favorite color",
  "Something that surprised you",
  "A tool that helps you",
  "Morning or evening light",
  "A warm blanket or cozy clothing",
  "Something you learned recently",
  "A photograph or keepsake",
  "Your ability to imagine",
  "A safe place",
  "Something green or growing",
  "The stars or moon",
  "Your sense of humor",
  "A kindness you gave to someone",
  "Movement or exercise",
  "Something that tastes delicious",
  "A letter or message you received",
  "Your favorite room",
  "Something smooth or pleasant to touch",
  "A helpful habit",
  "The changing seasons",
  "A gift you\x27ve been given",
  "Your favorite time of day"
]

/-- The affirmation table of `getAffirmationForDay` (gratitudeUtils.ts). -/
def affirmations : List String := [
  "I am worthy of love and happiness.",
  "I choose to see the beauty in each moment.",
  "I am grateful for the opportunities that come my way.",
  "I trust in my ability to overcome challenges.",
  "I am surrounded by abundance and joy.",
  "I radiate positivity and kindness.",
  "I am capable of creating positive change.",
  "I embrace each day with an open heart.",
  "I am strong, resilient, and full of potential.",
  "I attract wonderful experiences into my life.",
  "I am at peace with who I am becoming.",
  "I celebrate my progress, no matter how small.",
  "I am deserving of all good things.",
  "I choose gratitude over worry.",
  "I am connected to something greater than myself.",
  "I trust the journey and enjoy the process.",
  "I am enough, just as I am.",
  "I welcome growth and transformation.",
  "I am a source of light and inspiration.",
  "I honor my feelings and respect my boundaries.",
  "I am creating the life I want to live.",
  "I find joy in simple pleasures.",
  "I am patient with myself and others.",
  "I am open to receiving love and support.",
  "I believe in my dreams and take action.",
  "I am grateful for my unique gifts and talents.",
  "I choose to focus on what matters most.",
  "I am resilient and can handle whatever comes.",
  "I am surrounded by people who care about me.",
  "I am creating positive energy around me.",
  "I trust that everything is working out for my highest good.",
  "I am worthy of rest and self-care.",
  "I celebrate my achievements, big and small.",
  "I am learning and growing every single day.",
  "I am grateful for my body and all it does for me.",
  "I choose to see the good in others.",
  "I am creating meaningful connections.",
  "I am aligned with my purpose and values.",
  "I am grateful for the lessons life teaches me.",
  "I am confident in my ability to make good decisions.",
  "I am surrounded by beauty and wonder.",
  "I am creating space for what truly matters.",
  "I am grateful for the present moment.",
  "I am kind to myself and others.",
  "I am open to new possibilities and experiences.",
  "I am worthy of success and fulfillment.",
  "I choose to respond with love and compassion.",
  "I am grateful for the support I receive.",
  "I am creating a life filled with purpose and meaning.",
  "I trust in my inner wisdom and intuition.",
  "I am grateful for the gift of another day.",
  "I am becoming the best version of myself.",
  "I am worthy of all the good things life has to offer.",
  "I choose to focus on solutions, not problems.",
  "I am grateful for my ability to learn and adapt.",
  "I am creating positive change in my life.",
  "I am surrounded by love and support.",
  "I am grateful for the journey, not just the destination.",
  "I am enough, and I have enough.",
  "I choose to see challenges as opportunities.",
  "I am grateful for my strength and resilience.",
  "I am creating a life I love living.",
  "I trust that I am exactly where I need to be.",
  "I am grateful for the people who enrich my life.",
  "I am open to receiving abundance in all forms.",
  "I am creating harmony and balance in my life.",
  "I am grateful for my ability to make a difference.",
  "I choose to live with intention and purpose.",
  "I am worthy of peace, joy, and fulfillment."
]

/-- JS array indexing `arr[i]` with a possibly out-of-range or negative
integer index: any index outside `[0, length)` yields `undefined`. -/
def jsIndex {α : Type} (l : List α) (i : Int) : Option α :=
  if 0 ≤ i then l.get? i.toNat else none

/-- `getQuoteForDay` (gratitudeUtils.ts): `quotes[(dayOfYear - 1) % quotes.length]`.
The JS `%` operator is truncating remainder, `Int.tmod`. -/
def getQuoteForDay (dayOfYear : Int) : Option Quote :=
  jsIndex quotes ((dayOfYear - 1).tmod (quotes.length : Int))

/-- `getPromptForDay` (gratitudeUtils.ts). -/
def getPromptForDay (dayOfYear : Int) : Option String :=
  jsIndex prompts ((dayOfYear - 1).tmod (prompts.length : Int))

/-- `getAffirmationForDay` (gratitudeUtils.ts). -/
def getAffirmationForDay (dayOfYear : Int) : Option String :=
  jsIndex affirmations ((dayOfYear - 1).tmod (affirmations.length : Int))

theorem tmod_add_period (L d : Int) (hL : 0 < L) (hd : 1 ≤ d) :
    (d + L - 1).tmod L = (d - 1).tmod L := by
  have h1 : d + L - 1 = (d - 1) + L * 1 := by ring
  rw [h1, Int.tmod_eq_emod (by omega) (by omega), Int.tmod_eq_emod (by omega) (by omega),
    Int.add_mul_emod_self_left]

/-- C9: for each content table, day 1 yields `table[0]`, day
`length + 1` wraps around to `table[0]`, and in general the content for
day `d + length` equals the content for day `d`: the lookup cycles with
period equal to the table length. -/
theorem contentForDay_cycles :
    (∀ d : Int, 1 ≤ d →
      getQuoteForDay (d + (quotes.length : Int)) = getQuoteForDay d
      ∧ getPromptForDay (d + (prompts.length : Int)) = getPromptForDay d
      ∧ getAffirmationForDay (d + (affirmations.length : Int)) = getAffirmationForDay d)
    ∧ getQuoteForDay 1 = quotes.get? 0
    ∧ getQuoteForDay ((quotes.length : Int) + 1) = quotes.get? 0
    ∧ getPromptForDay 1 = prompts.get? 0
    ∧ getPromptForDay ((prompts.length : Int) + 1) = prompts.get? 0
    ∧ getAffirmationForDay 1 = affirmations.get? 0
    ∧ getAffirmationForDay ((affirmations.length : Int) + 1) = affirmations.get? 0 := by
  refine ⟨fun d hd => ⟨?_, ?_, ?_⟩, rfl, rfl, rfl, rfl, rfl, rfl⟩
  · show jsIndex quotes _ = jsIndex quotes _
    rw [tmod_add_period _ _ (by decide) hd]
  · show jsIndex prompts _ = jsIndex prompts _
    rw [tmod_add_period _ _ (by decide) hd]
  · show jsIndex affirmations _ = jsIndex affirmations _
    rw [tmod_add_period _ _ (by decide) hd]

/-- C9 witness: the cyclic-wrap equations applied at day 1. -/
theorem contentForDay_cycles_witness :
    getQuoteForDay (1 + (quotes.length : Int)) = getQuoteForDay 1
    ∧ getPromptForDay (1 + (prompts.length : Int)) = getPromptForDay 1 :=
  ⟨(contentForDay_cycles.1 1 (by decide)).1, (contentForDay_cycles.1 1 (by decide)).2.1⟩

theorem jsIndex_tmod_isSome {α : Type} (l : List α) (d : Int) (hd : 1 ≤ d)
    (hl : 0 < l.length) :
    (jsIndex l ((d - 1).tmod (l.length : Int))).isSome = true := by
  have h0 : 0 ≤ (d - 1).tmod (l.length : Int) := Int.tmod_nonneg _ (by omega)
  have hlt : (d - 1).tmod (l.length : Int) < (l.length : Int) :=
    Int.tmod_lt_of_pos _ (by exact_mod_cast hl)
  unfold jsIndex
  rw [if_pos h0]
  have hn : ((d - 1).tmod (l.length : Int)).toNat < l.length := by omega
  rw [List.get?_eq_get hn]
  rfl

/-- C10: for `dayOfYear ≥ 1` the index `(dayOfYear - 1) % tableLength`
lies in `[0, tableLength - 1]` and all three table lookups are defined;
for `dayOfYear = 0` the JS remainder is `-1` and all three lookups
return `undefined`. -/
theorem contentForDay_index_bounds :
    (∀ d : Int, 1 ≤ d →
      0 ≤ (d - 1).tmod (quotes.length : Int)
      ∧ (d - 1).tmod (quotes.length : Int) < (quotes.length : Int)
      ∧ (getQuoteForDay d).isSome = true
      ∧ (getPromptForDay d).isSome = true
      ∧ (getAffirmationForDay d).isSome = true)
    ∧ ((0 : Int) - 1).tmod (quotes.length : Int) = -1
    ∧ ((0 : Int) - 1).tmod (prompts.length : Int) = -1
    ∧ ((0 : Int) - 1).tmod (affirmations.length : Int) = -1
    ∧ getQuoteForDay 0 = none ∧ getPromptForDay 0 = none
    ∧ getAffirmationForDay 0 = none := by
  refine ⟨fun d hd => ⟨Int.tmod_nonneg _ (by omega), Int.tmod_lt_of_pos _ (by decide),
    jsIndex_tmod_isSome quotes d hd (by decide),
    jsIndex_tmod_isSome prompts d hd (by decide),
    jsIndex_tmod_isSome affirmations d hd (by decide)⟩,
    by decide, by decide, by decide, rfl, rfl, rfl⟩

/-- C10 witness: the index bounds and defined lookups at day 5. -/
theorem contentForDay_index_bounds_witness :
    0 ≤ ((5 : Int) - 1).tmod (quotes.length : Int)
    ∧ (getQuoteForDay 5).isSome = true ∧ getQuoteForDay 0 = none :=
  ⟨(contentForDay_index_bounds.1 5 (by decide)).1,
    (contentForDay_index_bounds.1 5 (by decide)).2.2.1,
    contentForDay_index_bounds.2.2.2.2.1⟩

/-! ## Recent recipients log — src/src/hooks/useGratitudeGift.ts -/

/-- `saveRecentRecipient` (useGratitudeGift.ts): remove the key if already
present, add it to the front, keep only the first 5 entries.  The prior
list read from local storage and the written result are made explicit. -/
def saveRecentRecipient (recent : List String) (pubkey : String) : List String :=
  (pubkey :: recent.filter (fun p => p != pubkey)).take 5

/-- C3 counterexample: the claim quantifies over every prior state, but for
the prior state `["a", "a"]` (duplicate keys in storage) the saved list
`saveRecentRecipient ["a", "a"] "b" = ["b", "a", "a"]` still contains
duplicate keys, contradicting the claimed no-duplicates conclusion. -/
theorem saveRecentRecipient_duplicate_prior_cex :
    saveRecentRecipient ["a", "a"] "b" = ["b", "a", "a"]
    ∧ ¬ (saveRecentRecipient ["a", "a"] "b").Nodup := by
  refine ⟨rfl, by decide⟩

theorem length_filter_ne_lt_of_mem {l : List String} {k : String} (h : k ∈ l) :
    (l.filter (fun p => p != k)).length < l.length := by
  induction l with
  | nil => cases h
  | cons a l ih =>
    by_cases ha : a = k
    · subst ha
      rw [List.filter_cons_of_neg (by simp)]
      exact Nat.lt_succ_of_le (List.length_filter_le _ l)
    · have hk : k ∈ l := by
        cases h with
        | head => exact absurd rfl ha
        | tail _ h => exact h
      rw [List.filter_cons_of_pos (p := fun p => p != k) (bne_iff_ne.mpr ha),
        List.length_cons, List.length_cons]
      exact Nat.succ_lt_succ (ih hk)

/-- C3 (amended): for every prior state of the recent-recipients list that
itself contains no duplicate keys (every list the operation can produce),
`saveRecentRecipient` yields a list of length at most 5 whose head is the
saved key and which contains no duplicates; re-inserting a present key
does not increase the length, and inserting a 6th distinct key into a full
log of 5 evicts the oldest (last) entry. -/
theorem saveRecentRecipient_spec (recent : List String) (k : String)
    (hnd : recent.Nodup) :
    (saveRecentRecipient recent k).length ≤ 5
    ∧ (saveRecentRecipient recent k).head? = some k
    ∧ (saveRecentRecipient recent k).Nodup
    ∧ (k ∈ recent → (saveRecentRecipient recent k).length ≤ recent.length)
    ∧ (recent.length = 5 → k ∉ recent →
        saveRecentRecipient recent k = k :: recent.dropLast) := by
  refine ⟨?_, ?_, ?_, ?_, ?_⟩
  · simp only [saveRecentRecipient, List.length_take]
    omega
  · show ((k :: recent.filter (fun p => p != k)).take 5).head? = some k
    rw [show (5 : Nat) = 4 + 1 from rfl, List.take_succ_cons]
    rfl
  · have hknotmem : k ∉ recent.filter (fun p => p != k) := by
      intro hmem
      have := List.of_mem_filter hmem
      simp [bne] at this
    have hcons : (k :: recent.filter (fun p => p != k)).Nodup :=
      List.nodup_cons.mpr ⟨hknotmem, hnd.filter _⟩
    exact hcons.sublist (List.take_sublist _ _)
  · intro hk
    have hlt := length_filter_ne_lt_of_mem hk
    simp only [saveRecentRecipient, List.length_take, List.length_cons]
    omega
  · intro hlen hk
    have hfix : recent.filter (fun p => p != k) = recent := by
      rw [List.filter_eq_self]
      intro a ha
      simp only [bne_iff_ne, ne_eq]
      exact fun hak => hk (hak ▸ ha)
    simp only [saveRecentRecipient, hfix,
      show (5 : Nat) = 4 + 1 from rfl, List.take_succ_cons]
    rw [List.dropLast_eq_take, hlen]

/-- C3 witness: the amended theorem applied to a full, duplicate-free log
of 5 keys and a fresh 6th key, checking the cap, the head, freedom from
duplicates, and eviction of the oldest entry. -/
theorem saveRecentRecipient_spec_witness :
    (saveRecentRecipient ["e", "d", "c", "b", "a"] "f").length ≤ 5
    ∧ (saveRecentRecipient ["e", "d", "c", "b", "a"] "f").head? = some "f"
    ∧ (saveRecentRecipient ["e", "d", "c", "b", "a"] "f").Nodup
    ∧ saveRecentRecipient ["e", "d", "c", "b", "a"] "f"
        = "f" :: (["e", "d", "c", "b", "a"] : List String).dropLast := by
  have h := saveRecentRecipient_spec ["e", "d", "c", "b", "a"] "f" (by decide)
  exact ⟨h.1, h.2.1, h.2.2.1, h.2.2.2.2 (by decide) (by decide)⟩

/-! ## Profile search — src/unnamed/part_003 (`PrimalCacheService`) and
src/src/lib/profileSearchService.ts -/

/-- WebSocket `readyState` values. -/
inductive WsReadyState where
  | connecting
  | opened
  | closing
  | closed
deriving DecidableEq

/-- The correlated search request (a `REQ` frame carrying the request id,
the query and the limit) sent over the channel. -/
structure PrimalRequest where
  requestId : String
  query : String
  limit : Nat
deriving DecidableEq

/-- Observable outcome of `searchProfiles` up to the point where the
request is handed to the socket: either the early empty result (nothing
sent), or the correlated request that is sent. -/
inductive SearchStep where
  | emptyResult
  | sendRequest (req : PrimalRequest)
deriving DecidableEq

/-- `PrimalCacheService.searchProfiles` (part_003): returns `[]` when the
query is falsy or shorter than 2 characters; throws
`WebSocket not connected` when the socket is absent or its state is not
OPEN; otherwise sends the correlated request.  `Except.error` models the
thrown exception. -/
def searchProfiles (ws : Option WsReadyState) (query : String) (limit : Nat)
    (requestId : String) : Except String SearchStep :=
  if query = "" ∨ query.length < 2 then .ok .emptyResult
  else
    match ws with
    | some .opened => .ok (.sendRequest ⟨requestId, query, limit⟩)
    | _ => .error "WebSocket not connected"

/-- Observable outcome of the hook-level `searchProfiles`
(profileSearchService.ts): either the early empty result, or a delegation
to the Primal cache with the fixed limit 10. -/
inductive HookStep where
  | emptyResult
  | delegates (query : String) (limit : Nat)
deriving DecidableEq

/-- The guard of `useProfileSearchService().searchProfiles`
(profileSearchService.ts): queries shorter than 2 characters return `[]`
before the Primal cache is consulted. -/
def hookSearchProfiles (query : String) : HookStep :=
  if query.length < 2 then .emptyResult else .delegates query 10

/-- C5: a query shorter than 2 characters yields the empty result at both
layers without any request being sent; a valid query with the channel not
Open fails fast with the explicit `WebSocket not connected` error; and a
request reaches the socket only when the query is valid and the channel
is Open. -/
theorem searchProfiles_guards :
    (∀ ws query limit requestId, query.length < 2 →
      searchProfiles ws query limit requestId = .ok .emptyResult
      ∧ hookSearchProfiles query = .emptyResult)
    ∧ (∀ ws query limit requestId, 2 ≤ query.length → ws ≠ some .opened →
      searchProfiles ws query limit requestId = .error "WebSocket not connected")
    ∧ (∀ ws query limit requestId req,
      searchProfiles ws query limit requestId = .ok (.sendRequest req) →
      2 ≤ query.length ∧ ws = some .opened) := by
  refine ⟨?_, ?_, ?_⟩
  · intro ws query limit requestId hq
    constructor
    · unfold searchProfiles
      rw [if_pos (Or.inr hq)]
    · unfold hookSearchProfiles
      rw [if_pos hq]
  · intro ws query limit requestId hq hws
    have hne : ¬(query = "" ∨ query.length < 2) := by
      rintro (h | h)
      · subst h; simp at hq
      · omega
    unfold searchProfiles
    rw [if_neg hne]
    cases ws with
    | none => rfl
    | some s =>
      cases s with
      | opened => exact absurd rfl hws
      | connecting => rfl
      | closing => rfl
      | closed => rfl
  · intro ws query limit requestId req h
    unfold searchProfiles at h
    by_cases hg : (query = "" ∨ query.length < 2)
    · rw [if_pos hg] at h
      simp at h
    · rw [if_neg hg] at h
      push_neg at hg
      cases ws with
      | none => simp at h
      | some s =>
        cases s with
        | opened => exact ⟨hg.2, rfl⟩
        | connecting => simp at h
        | closing => simp at h
        | closed => simp at h

/-- C5 witness: a 1-character query returns the empty result even on a
closed channel, and a 2-character query on a closed channel fails with
the explicit connection error. -/
theorem searchProfiles_guards_witness :
    (searchProfiles (some .closed) "a" 10 "r1" = .ok .emptyResult
      ∧ hookSearchProfiles "a" = .emptyResult)
    ∧ searchProfiles (some .closed) "ab" 10 "r2"
        = .error "WebSocket not connected" :=
  ⟨searchProfiles_guards.1 (some .closed) "a" 10 "r1" (by decide),
    searchProfiles_guards.2.1 (some .closed) "ab" 10 "r2" (by decide) (by decide)⟩

/-! ## Zap receipt scanner — src/unnamed/part_000 (`selectRandomZapper`) -/

/-- A Nostr event as consumed by the zap detector: id, author pubkey and
tag list (each tag a list of strings). -/
structure NostrEvent where
  id : String
  pubkey : String
  tags : List (List String)
deriving DecidableEq

/-- `event.tags.find(t => t[0] === name)`: the first tag whose first
element is `name`. -/
def findTag (e : NostrEvent) (tagName : String) : Option (List String) :=
  e.tags.find? (fun t => t.head? == some tagName)

/-- JS truthiness check of `t[1]`: the second tag element, `undefined` when
missing and falsy when the empty string. -/
def tagValue (t : List String) : Option String :=
  match t.get? 1 with
  | some v => if v = "" then none else some v
  | none => none

/-- The deduplication step of `selectRandomZapper`: insert each event into
a map keyed by event id only if the id is not yet present, keeping
insertion order (`Map` iteration order), i.e. the first occurrence of
each id wins. -/
def dedupByEventId (events : List NostrEvent) : List NostrEvent :=
  events.foldl
    (fun acc e => if acc.any (fun x => x.id == e.id) then acc else acc ++ [e]) []

/-- The result record of the zap detector. -/
structure ZapDetectorResult where
  zapperNpub : String
  zapperPubkey : String
  amount : Nat
deriving DecidableEq

/-- The per-event body of the processing loop of `selectRandomZapper`
(part_000): requires an `e` or `a` tag, decodes the bolt11 amount
(decode failure or missing tag leaves `amount = 0`), discards amounts
`≤ 10`, parses the description to recover the zapper pubkey (parse
failure or missing pubkey yields none), discards excluded or falsy
pubkeys, and npub-encodes the pubkey (encode failure discards).
`decodeAmount` models `nip57.getSatoshisAmountFromBolt11` (`none` =
throw), `parseDescPubkey` models `JSON.parse(...).pubkey` (`none` =
throw or missing field), `npubEncode` models `nip19.npubEncode`. -/
def processZap (decodeAmount : String → Option Nat)
    (parseDescPubkey : String → Option String)
    (npubEncode : String → Option String)
    (excludePubkeys : List String) (e : NostrEvent) : Option ZapDetectorResult :=
  if findTag e "e" = none ∧ findTag e "a" = none then none
  else
    let amount : Nat :=
      match findTag e "bolt11" with
      | some t =>
        match tagValue t with
        | some b => (decodeAmount b).getD 0
        | none => 0
      | none => 0
    if amount ≤ 10 then none
    else
      let zapperPubkey? : Option String :=
        match findTag e "description" with
        | some t =>
          match tagValue t with
          | some d => parseDescPubkey d
          | none => none
        | none => none
      match zapperPubkey? with
      | none => none
      | some pk =>
        if pk = "" ∨ pk ∈ excludePubkeys then none
        else
          match npubEncode pk with
          | none => none
          | some npub => some ⟨npub, pk, amount⟩

/-- The pool `processedZaps` of `selectRandomZapper`: merge the per-relay
event lists, deduplicate by event id, process each unique event.  The
Fisher–Yates shuffle then returns one element of this pool uniformly at
random (or null when the pool is empty); the randomness is outside the
deduplication and filtering behaviour claimed. -/
def selectRandomZapperPool (decodeAmount : String → Option Nat)
    (parseDescPubkey : String → Option String)
    (npubEncode : String → Option String)
    (excludePubkeys : List String)
    (relayEvents : List (List NostrEvent)) : List ZapDetectorResult :=
  (dedupByEventId relayEvents.flatten).filterMap
    (processZap decodeAmount parseDescPubkey npubEncode excludePubkeys)

theorem dedupByEventId_go_nodup (l acc : List NostrEvent)
    (h : (acc.map NostrEvent.id).Nodup) :
    ((l.foldl
        (fun acc e => if acc.any (fun x => x.id == e.id) then acc else acc ++ [e])
        acc).map NostrEvent.id).Nodup := by
  induction l generalizing acc with
  | nil => exact h
  | cons e l ih =>
    simp only [List.foldl_cons]
    by_cases hc : acc.any (fun x => x.id == e.id)
    · rw [if_pos hc]
      exact ih acc h
    · rw [if_neg hc]
      apply ih
      rw [List.map_append]
      refine List.nodup_append.mpr ⟨h, List.nodup_singleton _, ?_⟩
      intro a ha hb
      simp only [List.map_cons, List.map_nil, List.mem_singleton] at hb
      subst hb
      rcases List.mem_map.mp ha with ⟨x, hx, hxid⟩
      exact hc (List.any_eq_true.mpr ⟨x, hx, by simp [hxid]⟩)

theorem find?_append_of_mem_id {acc : List NostrEvent} {e : NostrEvent}
    (hc : ∃ x ∈ acc, x.id = e.id) (l : List NostrEvent) (i : String) :
    ((acc ++ e :: l).find? (fun x => x.id == i))
      = ((acc ++ l).find? (fun x => x.id == i)) := by
  rw [List.find?_append, List.find?_append]
  cases hacc : acc.find? (fun x => x.id == i) with
  | some v => rfl
  | none =>
    simp only [Option.none_or]
    have hne : (e.id == i) = false := by
      rcases hc with ⟨x, hx, hxid⟩
      have hxi := List.find?_eq_none.mp hacc x hx
      simp only [beq_iff_eq] at hxi
      exact beq_eq_false_iff_ne.mpr (fun hei => hxi (hxid.trans hei))
    simp [List.find?_cons, hne]

theorem dedupByEventId_go_find (l acc : List NostrEvent) (i : String) :
    ((l.foldl
        (fun acc e => if acc.any (fun x => x.id == e.id) then acc else acc ++ [e])
        acc).find? (fun x => x.id == i))
      = ((acc ++ l).find? (fun x => x.id == i)) := by
  induction l generalizing acc with
  | nil => simp
  | cons e l ih =>
    simp only [List.foldl_cons]
    by_cases hc : acc.any (fun x => x.id == e.id)
    · rw [if_pos hc, ih acc]
      have hx : ∃ x ∈ acc, x.id = e.id := by
        rcases List.any_eq_true.mp hc with ⟨x, hx, hxe⟩
        exact ⟨x, hx, by simpa using hxe⟩
      exact (find?_append_of_mem_id hx l i).symm
    · rw [if_neg hc, ih (acc ++ [e])]
      rw [List.append_assoc]
      rfl

/-- C2: after merging the per-relay event lists, deduplication keeps each
event id exactly once with the first occurrence winning (the first event
with a given id in the merged list is exactly the one found in the
deduplicated list); and the amount filter is strict at 10: a receipt
whose decoded bolt11 amount is exactly 10 is discarded, while one whose
decoded amount is 11 (and which passes the reference, description and
encoding checks) is retained. -/
theorem selectRandomZapper_dedup_and_boundary :
    (∀ (relayEvents : List (List NostrEvent)) (i : String),
      ((dedupByEventId relayEvents.flatten).map NostrEvent.id).Nodup
      ∧ (dedupByEventId relayEvents.flatten).find? (fun x => x.id == i)
          = relayEvents.flatten.find? (fun x => x.id == i))
    ∧ (∀ (decodeAmount : String → Option Nat)
        (parseDescPubkey npubEncode : String → Option String)
        (excludePubkeys : List String) (e : NostrEvent) (t : List String)
        (b : String),
      findTag e "bolt11" = some t → tagValue t = some b →
      decodeAmount b = some 10 →
      processZap decodeAmount parseDescPubkey npubEncode excludePubkeys e = none)
    ∧ (∀ (decodeAmount : String → Option Nat)
        (parseDescPubkey npubEncode : String → Option String)
        (excludePubkeys : List String) (e : NostrEvent) (t d : List String)
        (b s pk npub : String),
      findTag e "bolt11" = some t → tagValue t = some b →
      decodeAmount b = some 11 →
      ¬(findTag e "e" = none ∧ findTag e "a" = none) →
      findTag e "description" = some d → tagValue d = some s →
      parseDescPubkey s = some pk → pk ≠ "" → pk ∉ excludePubkeys →
      npubEncode pk = some npub →
      processZap decodeAmount parseDescPubkey npubEncode excludePubkeys e
        = some ⟨npub, pk, 11⟩) := by
  refine ⟨fun relayEvents i => ⟨?_, ?_⟩, ?_, ?_⟩
  · exact dedupByEventId_go_nodup relayEvents.flatten [] (by simp)
  · rw [show dedupByEventId relayEvents.flatten
        = relayEvents.flatten.foldl
            (fun acc e => if acc.any (fun x => x.id == e.id) then acc
              else acc ++ [e]) [] from rfl,
      dedupByEventId_go_find]
    rfl
  · intro decodeAmount parseDescPubkey npubEncode excludePubkeys e t b ht hb hdec
    unfold processZap
    by_cases href : (findTag e "e" = none ∧ findTag e "a" = none)
    · rw [if_pos href]
    · rw [if_neg href]
      simp only [ht, hb, hdec, Option.getD_some]
      rw [if_pos (by norm_num)]
  · intro decodeAmount parseDescPubkey npubEncode excludePubkeys e t d b s pk
      npub ht hb hdec href hd hs hpk hne hnmem henc
    unfold processZap
    rw [if_neg href]
    simp only [ht, hb, hdec, Option.getD_some]
    rw [if_neg (by norm_num)]
    simp only [hd, hs, hpk]
    rw [if_neg (by
      rintro (h | h)
      · exact hne h
      · exact hnmem h)]
    simp [henc]

/-- C2 witness: two relay lists sharing the event id `id1`; deduplication
keeps `id1` once (the first occurrence), an amount-10 receipt is
discarded and an amount-11 receipt is retained. -/
theorem selectRandomZapper_dedup_and_boundary_witness :
    (((dedupByEventId
        [[⟨"id1", "p1", [["e", "x"], ["bolt11", "inv11"], ["description", "desc1"]]⟩],
         [⟨"id1", "p1", [["e", "x"], ["bolt11", "inv11"], ["description", "desc1"]]⟩,
          ⟨"id2", "p2", [["e", "x"], ["bolt11", "inv10"], ["description", "desc1"]]⟩]].flatten).map
          NostrEvent.id).Nodup)
    ∧ processZap (fun b => if b = "inv11" then some 11 else some 10)
        (fun s => if s = "desc1" then some "p1" else none)
        (fun pk => if pk = "p1" then some "npubp1" else none) []
        ⟨"id2", "p2", [["e", "x"], ["bolt11", "inv10"], ["description", "desc1"]]⟩ = none
    ∧ processZap (fun b => if b = "inv11" then some 11 else some 10)
        (fun s => if s = "desc1" then some "p1" else none)
        (fun pk => if pk = "p1" then some "npubp1" else none) []
        ⟨"id1", "p1", [["e", "x"], ["bolt11", "inv11"], ["description", "desc1"]]⟩
        = some ⟨"npubp1", "p1", 11⟩ :=
  ⟨(selectRandomZapper_dedup_and_boundary.1 _ "id1").1,
    selectRandomZapper_dedup_and_boundary.2.1 _ _ _ _ _ ["bolt11", "inv10"] "inv10"
      (by decide) (by decide) (by decide),
    selectRandomZapper_dedup_and_boundary.2.2 _ _ _ _ _ ["bolt11", "inv11"]
      ["description", "desc1"] "inv11" "desc1" "p1" "npubp1"
      (by decide) (by decide) (by decide) (by decide) (by decide) (by decide)
      (by decide) (by decide) (by decide) (by decide)⟩

/-! ## Mention autocomplete — src/src/components/AutocompleteTextarea.tsx
(`handleInput`) -/

/-- JS regex `\w`: ASCII letter, digit or underscore. -/
def isWordChar (c : Char) : Bool :=
  c.isAlphanum || c == '_'

/-- The maximal word-character suffix of the text before the caret. -/
def wordSuffix (s : List Char) : List Char :=
  (s.reverse.takeWhile isWordChar).reverse

/-- Model of `textBeforeCursor.match(/@([\w]+)$/)`: the capture group, a
non-empty run of word characters reaching the end of the text and
immediately preceded by `@`. -/
def atMatch (s : List Char) : Option (List Char) :=
  let w := wordSuffix s
  if w ≠ [] ∧ (s.take (s.length - w.length)).getLast? = some '@' then some w
  else none

/-- Whether `t` is an identifier the `nostr:` regex alternation accepts:
`npub1` or `nprofile1` followed by at least one word character (all of
`t` consists of word characters by construction of the caller). -/
def isNostrIdToken (t : List Char) : Bool :=
  ("npub1".data.isPrefixOf t && decide (6 ≤ t.length))
    || ("nprofile1".data.isPrefixOf t && decide (10 ≤ t.length))

/-- Model of `textBeforeCursor.match(/nostr:(npub1[\w]+|nprofile1[\w]+)$/)`:
the longest word-character suffix that begins with `npub1`/`nprofile1`
and is immediately preceded by the literal `nostr:` (the leftmost regex
match yields the longest such capture, since the captured run must
extend to the end of the string). -/
def nostrMatch (s : List Char) : Option (List Char) :=
  let w := wordSuffix s
  (List.range (w.length + 1)).findSome? (fun i =>
    let t := w.drop i
    if isNostrIdToken t && "nostr:".data.isSuffixOf (s.take (s.length - t.length))
    then some t else none)

/-- What `handleInput` schedules for the text before the caret: a
debounced `fetchProfile` for an explicit identifier, a debounced
`searchProfiles` for a bare `@word`, clearing the dropdown when neither
pattern matches, or nothing (a matched pattern whose gate failed). -/
inductive EditorAction where
  | fetchIdentity (identifier : List Char)
  | searchUsers (query : List Char)
  | clearSuggestions
  | keepState
deriving DecidableEq

/-- `handleInput` (AutocompleteTextarea.tsx): classify the text before the
caret.  A `nostr:`-form identifier is parsed only when
`identifierString.length >= 59` (total length, `npub1`/`nprofile1`
prefix included); an `@`-form identifier likewise requires
`query.length >= 59`; a bare `@word` of length ≥ 2 that is not an
identifier triggers a user search.  `parseOk` models
`parseIdentifier` (profileSearchService.ts), whose success requires the
external `nip19.decode` to accept the identifier. -/
def handleInputAction (textBeforeCursor : List Char)
    (parseOk : List Char → Bool) : EditorAction :=
  match nostrMatch textBeforeCursor with
  | some idStr =>
    if 59 ≤ idStr.length then
      if parseOk idStr then .fetchIdentity idStr else .keepState
    else .keepState
  | none =>
    match atMatch textBeforeCursor with
    | some query =>
      if "npub1".data.isPrefixOf query || "nprofile1".data.isPrefixOf query then
        if 59 ≤ query.length then
          if parseOk query then .fetchIdentity query else .keepState
        else .keepState
      else if 2 ≤ query.length then .searchUsers query
      else .keepState
    | none => .clearSuggestions

/-- A syntactically complete, decodable npub: 58 characters after the
`npub1` prefix (63 in total), the length every valid npub has. -/
def completeNpubId : List Char :=
  "npub1sg6plzptd64u62a878hep2kev88swjh3tw00gjsfl8f237lmu63q0uf63m".data

/-- Text before the caret ending in `nostr:` followed by the complete
npub. -/
def completeNpubText : List Char :=
  "nostr:npub1sg6plzptd64u62a878hep2kev88swjh3tw00gjsfl8f237lmu63q0uf63m".data

/-- C6 counterexample: the claim says a fetch happens only when at least 59
characters follow the `npub1` prefix, but for a complete, decodable npub —
which has exactly 58 characters after its prefix — `handleInput` does
schedule the profile fetch (the code gates on the total length, 63 ≥ 59). -/
theorem handleInput_complete_npub_fetch_cex :
    handleInputAction completeNpubText (fun _ => true)
      = .fetchIdentity completeNpubId
    ∧ (completeNpubId.drop 5).length = 58 := by
  exact ⟨rfl, rfl⟩

/-- C6 (amended): `handleInput` resolves an explicit mention identifier via
the profile fetch only when the matched identifier is syntactically
complete in the sense the code checks: its total length, prefix included,
is at least 59 characters (i.e. at least 54 after `npub1`, or 50 after
`nprofile1`); any shorter identifier schedules no fetch. -/
theorem handleInput_fetch_requires_total_length (s : List Char)
    (parseOk : List Char → Bool) (idStr : List Char)
    (h : handleInputAction s parseOk = .fetchIdentity idStr) :
    59 ≤ idStr.length := by
  unfold handleInputAction at h
  cases hn : nostrMatch s with
  | some t =>
    rw [hn] at h
    have h1 : (if 59 ≤ t.length then
        (if parseOk t = true then EditorAction.fetchIdentity t
          else EditorAction.keepState)
        else EditorAction.keepState) = EditorAction.fetchIdentity idStr := h
    by_cases h59 : 59 ≤ t.length
    · rw [if_pos h59] at h1
      by_cases hp : parseOk t = true
      · rw [if_pos hp] at h1
        injection h1 with he
        exact he ▸ h59
      · rw [if_neg hp] at h1
        cases h1
    · rw [if_neg h59] at h1
      cases h1
  | none =>
    rw [hn] at h
    cases ha : atMatch s with
    | some q =>
      rw [ha] at h
      have h1 : (if ("npub1".data.isPrefixOf q
            || "nprofile1".data.isPrefixOf q) = true then
          (if 59 ≤ q.length then
            (if parseOk q = true then EditorAction.fetchIdentity q
              else EditorAction.keepState)
            else EditorAction.keepState)
          else if 2 ≤ q.length then EditorAction.searchUsers q
            else EditorAction.keepState) = EditorAction.fetchIdentity idStr := h
      by_cases hid : ("npub1".data.isPrefixOf q
          || "nprofile1".data.isPrefixOf q) = true
      · rw [if_pos hid] at h1
        by_cases h59 : 59 ≤ q.length
        · rw [if_pos h59] at h1
          by_cases hp : parseOk q = true
          · rw [if_pos hp] at h1
            injection h1 with he
            exact he ▸ h59
          · rw [if_neg hp] at h1
            cases h1
        · rw [if_neg h59] at h1
          cases h1
      · rw [if_neg hid] at h1
        by_cases h2 : 2 ≤ q.length
        · rw [if_pos h2] at h1
          cases h1
        · rw [if_neg h2] at h1
          cases h1
    | none =>
      rw [ha] at h
      have h1 : EditorAction.clearSuggestions
          = EditorAction.fetchIdentity idStr := h
      cases h1

/-- C6 witness: the amended theorem applied to the complete npub, whose
scheduled fetch indeed carries an identifier of total length ≥ 59. -/
theorem handleInput_fetch_requires_total_length_witness :
    59 ≤ completeNpubId.length :=
  handleInput_fetch_requires_total_length completeNpubText (fun _ => true)
    completeNpubId rfl

/-! ## Gift payment flow — src/src/hooks/useGratitudeGift.ts
(`sendGratitudeGift`, `publishZapRequest`, `handlePaymentSuccess`) -/

/-- The inputs that decide the payment phase of `sendGratitudeGift` after
an invoice has been obtained: availability and outcome of the NWC
wallet connection, of the in-browser WebLN provider, of the configured
external wallet app, and the outcome of publishing the signed zap
request to the relays. -/
structure PaymentEnv where
  nwcConnected : Bool
  nwcPayResult : Except String Unit
  weblnAvailable : Bool
  weblnPayResult : Except String Unit
  walletAppConfigured : Bool
  walletAppOpened : Bool
  publishResult : Except String Unit

/-- `publishZapRequest` (useGratitudeGift.ts lines 27–34): awaits
`nostr.event` and catches any error — a publish failure is logged and
swallowed, never rethrown. -/
def publishZapRequest (publishResult : Except String Unit) : Except String Unit :=
  match publishResult with
  | .ok _ => .ok ()
  | .error _ => .ok ()

/-- The observable outcome of the payment phase: `success` is the returned
`success` flag, `manualInvoice` whether the invoice is handed back for
manual payment / polling. -/
structure GiftOutcome where
  success : Bool
  manualInvoice : Bool
deriving DecidableEq

/-- The payment phase of `sendGratitudeGift` (useGratitudeGift.ts lines
378–442): try NWC, then WebLN, then the external wallet app, then the
manual fallback.  `handlePaymentSuccess` awaits `publishZapRequest` and
returns `{ success: true }`. -/
def sendGratitudeGiftPayPhase (env : PaymentEnv) : Except String GiftOutcome :=
  let handlePaymentSuccess : Except String GiftOutcome :=
    (publishZapRequest env.publishResult).bind fun _ => .ok ⟨true, false⟩
  let afterWebln : Except String GiftOutcome :=
    if env.walletAppConfigured && env.walletAppOpened then .ok ⟨false, true⟩
    else .ok ⟨false, true⟩
  let afterNwc : Except String GiftOutcome :=
    if env.weblnAvailable then
      match env.weblnPayResult with
      | .ok _ => handlePaymentSuccess
      | .error _ => afterWebln
    else afterWebln
  if env.nwcConnected then
    match env.nwcPayResult with
    | .ok _ => handlePaymentSuccess
    | .error _ => afterNwc
  else afterNwc

/-- C7: whenever the invoice is paid through an automatic channel — the
NWC wallet connection, or the WebLN in-browser provider (reached when
NWC is absent or its payment failed) — `sendGratitudeGift` returns
`success = true` for every publish outcome, including a publish error:
the error is caught inside `publishZapRequest` and never converts the
result into a failure. -/
theorem sendGratitudeGift_publish_failure_nonfatal (env : PaymentEnv)
    (h : (env.nwcConnected = true ∧ env.nwcPayResult = .ok ())
      ∨ ((env.nwcConnected = false ∨ env.nwcPayResult ≠ .ok ())
          ∧ env.weblnAvailable = true ∧ env.weblnPayResult = .ok ())) :
    sendGratitudeGiftPayPhase env = .ok ⟨true, false⟩ := by
  have hpub : publishZapRequest env.publishResult = .ok () := by
    unfold publishZapRequest
    cases env.publishResult <;> rfl
  unfold sendGratitudeGiftPayPhase
  rcases h with ⟨hc, hok⟩ | ⟨hfail, hwa, hwok⟩
  · rw [if_pos hc, hok]
    rw [hpub]
    rfl
  · have hrest :
        (if env.weblnAvailable = true then
          match env.weblnPayResult with
          | .ok _ => (publishZapRequest env.publishResult).bind
              fun _ => (.ok ⟨true, false⟩ : Except String GiftOutcome)
          | .error _ =>
            if env.walletAppConfigured && env.walletAppOpened then
              (.ok ⟨false, true⟩ : Except String GiftOutcome)
            else .ok ⟨false, true⟩
        else
          if env.walletAppConfigured && env.walletAppOpened then
            (.ok ⟨false, true⟩ : Except String GiftOutcome)
          else .ok ⟨false, true⟩) = .ok ⟨true, false⟩ := by
      rw [if_pos hwa, hwok]
      rw [hpub]
      rfl
    by_cases hc : env.nwcConnected = true
    · rw [if_pos hc]
      rcases hfail with hf | hf
      · rw [hf] at hc
        cases hc
      · cases hn : env.nwcPayResult with
        | ok u =>
          cases u
          exact absurd hn hf
        | error msg =>
          exact hrest
    · rw [if_neg hc]
      exact hrest

/-- C7 witness: NWC connected and its payment succeeded while publishing
the zap request fails; the outcome is still `success = true`. -/
theorem sendGratitudeGift_publish_failure_nonfatal_witness :
    sendGratitudeGiftPayPhase
      ⟨true, .ok (), false, .error "unreachable", false, false,
        .error "publish failed"⟩ = .ok ⟨true, false⟩ :=
  sendGratitudeGift_publish_failure_nonfatal _ (Or.inl ⟨rfl, rfl⟩)

/-! ## Recipient selection — src/src/hooks/useGratitudeGift.ts
(`selectRandomRecipient`) and `isBot` (src/lib/botDetection.ts, reproduced
in the repository README) -/

/-- The parsed profile content relevant to candidate filtering. -/
structure ProfileData where
  lud16 : Option String
  lud06 : Option String
  nip05 : Option String

/-- JS `String.prototype.includes` on character lists. -/
def strContains (s pat : List Char) : Bool :=
  (List.range (s.length + 1)).any (fun i => pat.isPrefixOf (s.drop i))

/-- JS `toLowerCase` on the ASCII range, as a character list. -/
def lowerChars (s : String) : List Char :=
  s.data.map Char.toLower

/-- `isBot` (botDetection.ts, shown in README.md): case-insensitive
substring match of `bot` or `news` in the NIP-05 identifier, or `bot` in
the lightning address; a missing field contributes the empty string. -/
def isBot (nip05 : Option String) (lightningAddress : Option String) : Bool :=
  let nip05Lower := lowerChars (nip05.getD "")
  let lightningLower := lowerChars (lightningAddress.getD "")
  strContains nip05Lower "bot".data || strContains nip05Lower "news".data
    || strContains lightningLower "bot".data

/-- JS truthiness of a possibly-undefined string: `undefined` and the
empty string are falsy. -/
def truthy : Option String → Bool
  | some s => s != ""
  | none => false

/-- JS `a || b` on possibly-undefined strings. -/
def jsOr (a b : Option String) : Option String :=
  if truthy a then a else b

/-- `Array.from(new Set(...))`: first-occurrence order deduplication. -/
def dedupFirst (l : List String) : List String :=
  l.foldl (fun acc x => if acc.contains x then acc else acc ++ [x]) []

/-- The fallback of `selectRandomRecipient` (useGratitudeGift.ts lines
192–201): when the valid-recipient pool is empty and recent recipients
were excluded, re-admit a recent recipient found among
`candidatesWithLightning`.  Here `candidatesWithLightning` is the list
its guard tests, since the code sets
`validRecipients = candidatesWithLightning`. -/
def relaxationFallback (recentRecipients candidatesWithLightning : List String) :
    Option String :=
  if candidatesWithLightning.length = 0 ∧ recentRecipients.length ≠ 0 then
    candidatesWithLightning.find? (fun c => recentRecipients.contains c)
  else none

/-- `selectRandomRecipient` (useGratitudeGift.ts lines 76–222).
`user` is the current user's pubkey, `excludeArg` the optional explicit
exclusion, `storedRecent` the persisted recent-recipients list,
`recentEventAuthors` the author pubkeys of the fetched recent kind-1
events in arrival order, `profileOf` the fetched-and-parsed profile per
author (`none` = no kind-0 event or invalid JSON), and `randomIndex`
the random draw (`Math.floor(Math.random() * length)`, modelled modulo
the pool size).  The selected pubkey stands for the returned candidate
record. -/
def selectRandomRecipient (user : Option String) (excludeArg : Option String)
    (storedRecent : List String) (recentEventAuthors : List String)
    (profileOf : String → Option ProfileData) (randomIndex : Nat) :
    Option String :=
  let recentRecipients : List String :=
    match excludeArg with
    | some pk => [pk]
    | none => storedRecent
  if recentEventAuthors.length = 0 then none
  else
    let pubkeys := (dedupFirst recentEventAuthors).filter (fun pk =>
      !(user == some pk) && !(recentRecipients.contains pk))
    if pubkeys.length = 0 then none
    else
      let candidatesWithLightning := pubkeys.filter (fun pk =>
        match profileOf pk with
        | none => false
        | some pd =>
          let la := jsOr pd.lud16 pd.lud06
          truthy la && !(isBot pd.nip05 la))
      if candidatesWithLightning.length = 0 then none
      else
        let validRecipients := candidatesWithLightning
        match relaxationFallback recentRecipients candidatesWithLightning with
        | some fb => some fb
        | none =>
          if validRecipients.length = 0 then none
          else validRecipients.get? (randomIndex % validRecipients.length)

/-- The profile of the qualified author of the failing input: parsable
lightning address, not classified as a bot. -/
def aliceProfile : ProfileData :=
  { lud16 := some "alice@lightning.example", lud06 := none,
    nip05 := some "alice@example.com" }

/-- C1 (code bug): `alice` authors every fetched recent post, has a
parsable lightning address and is not a bot, yet with `alice` in the
recent-recipients list `selectRandomRecipient` returns null instead of
relaxing the exclusion: the exclusion is applied before the candidate
pool is built, so the relaxation fallback scans a pool that can never
contain a recent recipient — and (third conjunct) the fallback returns
none on every input, because its guard requires the very pool it
searches to be empty. -/
theorem selectRandomRecipient_null_despite_qualified_author :
    (truthy (jsOr aliceProfile.lud16 aliceProfile.lud06) = true
      ∧ isBot aliceProfile.nip05 (jsOr aliceProfile.lud16 aliceProfile.lud06)
          = false)
    ∧ selectRandomRecipient none none ["alice"] ["alice"]
        (fun pk => if pk = "alice" then some aliceProfile else none) 0 = none
    ∧ (∀ recentRecipients candidatesWithLightning,
        relaxationFallback recentRecipients candidatesWithLightning = none) := by
  refine ⟨⟨by decide, by decide⟩, by decide, ?_⟩
  intro rr cl
  unfold relaxationFallback
  by_cases h : cl.length = 0 ∧ rr.length ≠ 0
  · rw [if_pos h]
    have hnil : cl = [] := List.length_eq_zero.mp h.1
    subst hnil
    rfl
  · rw [if_neg h]

end GratefulDay
